import Mathlib

/-!
Verification development for the incremental CUR-to-Parquet synchronization
pipeline (`y-new.py` and `parquet_utils.py`).  The Python source is embedded
shallowly: pure helpers become Lean functions, the effectful orchestrator
becomes a function that returns an explicit effect trace, machine-level
library calls (MD5 hashing, UTF-8 encoding, calendar arithmetic) are
implemented executably, and external library calls with no algorithmic
content in the repository (`json.loads`, pandas parsing) are abstracted as
explicit parameters of the environment.
-/

namespace CurSync

/-! ## MD5 (RFC 1321), used by `_generate_target_filename` / `_get_target_key`
via Python's `hashlib.md5(source_key.encode()).hexdigest()`. -/

def M32 : Nat := 4294967296

def rotl32 (x n : Nat) : Nat :=
  ((x <<< n) ||| (x >>> (32 - n))) % M32

/-- The 64 MD5 sine-derived constants. -/
def md5K : List Nat :=
  [3614090360, 3905402710, 606105819, 3250441966, 4118548399, 1200080426, 2821735955, 4249261313,
   1770035416, 2336552879, 4294925233, 2304563134, 1804603682, 4254626195, 2792965006, 1236535329,
   4129170786, 3225465664, 643717713, 3921069994, 3593408605, 38016083, 3634488961, 3889429448,
   568446438, 3275163606, 4107603335, 1163531501, 2850285829, 4243563512, 1735328473, 2368359562,
   4294588738, 2272392833, 1839030562, 4259657740, 2763975236, 1272893353, 4139469664, 3200236656,
   681279174, 3936430074, 3572445317, 76029189, 3654602809, 3873151461, 530742520, 3299628645,
   4096336452, 1126891415, 2878612391, 4237533241, 1700485571, 2399980690, 4293915773, 2240044497,
   1873313359, 4264355552, 2734768916, 1309151649, 4149444226, 3174756917, 718787259, 3951481745]

/-- The 64 MD5 per-round left-rotation amounts. -/
def md5S : List Nat :=
  [7, 12, 17, 22, 7, 12, 17, 22, 7, 12, 17, 22, 7, 12, 17, 22,
   5, 9, 14, 20, 5, 9, 14, 20, 5, 9, 14, 20, 5, 9, 14, 20,
   4, 11, 16, 23, 4, 11, 16, 23, 4, 11, 16, 23, 4, 11, 16, 23,
   6, 10, 15, 21, 6, 10, 15, 21, 6, 10, 15, 21, 6, 10, 15, 21]

/-- Little-endian decoding of (up to) four bytes into one 32-bit word. -/
def leWord (bs : List Nat) : Nat :=
  bs.getD 0 0 + ((bs.getD 1 0) <<< 8) + ((bs.getD 2 0) <<< 16) + ((bs.getD 3 0) <<< 24)

/-- Little-endian encoding of a 32-bit word into four bytes. -/
def leBytes4 (w : Nat) : List Nat :=
  [w % 256, (w >>> 8) % 256, (w >>> 16) % 256, (w >>> 24) % 256]

/-- Little-endian encoding of a 64-bit word into eight bytes. -/
def leBytes8 (w : Nat) : List Nat :=
  leBytes4 (w % M32) ++ leBytes4 ((w >>> 32) % M32)

/-- MD5 padding: a 0x80 byte, zero bytes up to 56 mod 64, then the bit
length as a little-endian 64-bit integer. -/
def md5Pad (msg : List Nat) : List Nat :=
  let len := msg.length
  let padLen := (120 - (len + 1) % 64) % 64
  msg ++ [128] ++ List.replicate padLen 0 ++ leBytes8 (8 * len)

/-- One of the 64 MD5 rounds. `m` is the schedule of the current block. -/
def md5Step (m : Nat → Nat) (st : Nat × Nat × Nat × Nat) (i : Nat) :
    Nat × Nat × Nat × Nat :=
  let (a, b, c, d) := st
  let f :=
    if i < 16 then (b &&& c) ||| ((b ^^^ 4294967295) &&& d)
    else if i < 32 then (d &&& b) ||| ((d ^^^ 4294967295) &&& c)
    else if i < 48 then b ^^^ c ^^^ d
    else c ^^^ (b ||| (d ^^^ 4294967295))
  let g :=
    if i < 16 then i
    else if i < 32 then (5 * i + 1) % 16
    else if i < 48 then (3 * i + 5) % 16
    else (7 * i) % 16
  let tmp := (a + f + md5K.getD i 0 + m g) % M32
  (d, (b + rotl32 tmp (md5S.getD i 0)) % M32, b, c)

/-- Process one 64-byte block, updating the running state. -/
def md5Block (st : Nat × Nat × Nat × Nat) (block : List Nat) :
    Nat × Nat × Nat × Nat :=
  let m := fun g => leWord ((block.drop (4 * g)).take 4)
  let r := (List.range 64).foldl (md5Step m) st
  ((st.1 + r.1) % M32, (st.2.1 + r.2.1) % M32,
   (st.2.2.1 + r.2.2.1) % M32, (st.2.2.2 + r.2.2.2) % M32)

/-- Split the padded message into 64-byte blocks. -/
def md5Blocks (msg : List Nat) : List (List Nat) :=
  let p := md5Pad msg
  (List.range (p.length / 64)).map (fun i => ((p.drop (64 * i)).take 64))

def hexDigit (n : Nat) : Char :=
  if n < 10 then Char.ofNat (48 + n) else Char.ofNat (87 + n)

def byteHex (b : Nat) : List Char :=
  [hexDigit (b / 16), hexDigit (b % 16)]

/-- Full MD5 hex digest (32 lowercase hex characters) of a byte sequence. -/
def md5Hex (msg : List Nat) : String :=
  let r := (md5Blocks msg).foldl md5Block (1732584193, 4023233417, 2562383102, 271733878)
  String.mk (((leBytes4 r.1 ++ leBytes4 r.2.1 ++ leBytes4 r.2.2.1 ++ leBytes4 r.2.2.2).map byteHex).flatten)

/-- UTF-8 encoding of one code point, as produced by Python's `str.encode()`. -/
def utf8Char (c : Char) : List Nat :=
  let n := c.toNat
  if n < 128 then [n]
  else if n < 2048 then [192 ||| (n >>> 6), 128 ||| (n &&& 63)]
  else if n < 65536 then
    [224 ||| (n >>> 12), 128 ||| ((n >>> 6) &&& 63), 128 ||| (n &&& 63)]
  else
    [240 ||| (n >>> 18), 128 ||| ((n >>> 12) &&& 63),
     128 ||| ((n >>> 6) &&& 63), 128 ||| (n &&& 63)]

def utf8Bytes (s : String) : List Nat :=
  (s.data.map utf8Char).flatten

/-- `hashlib.md5(s.encode()).hexdigest()`. -/
def md5HexOfString (s : String) : String :=
  md5Hex (utf8Bytes s)

/-- Python's `s[-n:]` on a string of length at least `n`. -/
def takeRightStr (s : String) (n : Nat) : String :=
  String.mk (s.data.drop (s.data.length - n))

/-! ### Structural string helpers

Counterparts of the Python `str` operations used by the pipeline, written
by structural recursion over the character list so that concrete instances
evaluate inside the kernel. -/

def splitCharAux (c : Char) : List Char → List Char → List (List Char)
  | [], acc => [acc.reverse]
  | x :: xs, acc =>
    if x = c then acc.reverse :: splitCharAux c xs []
    else splitCharAux c xs (x :: acc)

/-- Python `s.split(c)` for a one-character separator. -/
def splitChar (c : Char) (s : String) : List String :=
  (splitCharAux c s.data []).map String.mk

def strStartsWith (s pat : String) : Bool :=
  pat.data.isPrefixOf s.data

def strEndsWith (s pat : String) : Bool :=
  pat.data.isSuffixOf s.data

def charLower (c : Char) : Char :=
  if 65 ≤ c.toNat ∧ c.toNat ≤ 90 then Char.ofNat (c.toNat + 32) else c

/-- Python `s.lower()` on ASCII text. -/
def strToLower (s : String) : String :=
  String.mk (s.data.map charLower)

def isWsChar (c : Char) : Bool :=
  c.toNat = 32 ∨ c.toNat = 9 ∨ c.toNat = 10 ∨ c.toNat = 13 ∨
  c.toNat = 11 ∨ c.toNat = 12

/-- Python `s.strip()` for the usual whitespace characters. -/
def pyStrip (s : String) : String :=
  String.mk (((s.data.dropWhile isWsChar).reverse.dropWhile isWsChar).reverse)

/-- Python `s[n:]` (slicing by code points). -/
def strDrop (s : String) (n : Nat) : String :=
  String.mk (s.data.drop n)

def joinSep (sep : String) : List String → String
  | [] => ""
  | [x] => x
  | x :: y :: xs => x ++ sep ++ joinSep sep (y :: xs)

def digitsVal : List Char → Nat → Option Nat
  | [], acc => some acc
  | c :: cs, acc =>
    if 48 ≤ c.toNat ∧ c.toNat ≤ 57 then digitsVal cs (acc * 10 + (c.toNat - 48))
    else none

/-- Parse a nonempty all-digit string. -/
def digitsToNat (s : String) : Option Nat :=
  if s.data.isEmpty then none else digitsVal s.data 0

example : md5HexOfString "abc" = "900150983cd24fb0d6963f7d28e17f72" := by decide
example : takeRightStr (md5HexOfString "k1") 16 = "850c18cccde915da" := by decide

/-! ## Datetimes

A Python `datetime` is modelled by its wall-clock reading in milliseconds
together with an optional timezone offset (`tzinfo`); `none` models a naive
datetime.  The absolute instant of an aware datetime is its wall reading
minus its offset. -/

structure PyDatetime where
  wallMs : Int
  tzOffsetMs : Option Int
  deriving Repr, DecidableEq

def PyDatetime.instantMs (d : PyDatetime) : Int :=
  d.wallMs - d.tzOffsetMs.getD 0

/-- The naive-datetime branch of `ensure_utc_timestamp` (y-new.py:45):
`timestamp.replace(tzinfo=timezone.utc)` attaches UTC to a naive value,
keeping its wall-clock reading; aware values pass through unchanged. -/
def ensureAware (d : PyDatetime) : PyDatetime :=
  if d.tzOffsetMs.isSome then d else { d with tzOffsetMs := some 0 }

/-- `ensure_utc_timestamp` (y-new.py:45-62) restricted to
`None`-or-`datetime` inputs, which is what both the ledger and the S3
metadata probe supply in the manifest pipeline. -/
def ensure_utc_timestamp : Option PyDatetime → Option PyDatetime
  | none => none
  | some t => some (ensureAware t)

/-! ## JSON values and Python stringification -/

inductive JsonVal where
  | jstr (s : String)
  | jnum (n : Int)
  | jbool (b : Bool)
  | jnull
  | jarr (xs : List JsonVal)
  | jobj (fields : List (String × JsonVal))
  deriving Repr

def sq : String := String.singleton (Char.ofNat 39)

-- Python `repr` of a value decoded from JSON (used for `str` of
-- non-string containers).
mutual
def pyRepr : JsonVal → String
  | .jstr s => sq ++ s ++ sq
  | .jnum n => toString n
  | .jbool b => if b then "True" else "False"
  | .jnull => "None"
  | .jarr xs => "[" ++ pyReprList xs ++ "]"
  | .jobj fs => "\x7b" ++ pyReprFields fs ++ "\x7d"
def pyReprList : List JsonVal → String
  | [] => ""
  | [x] => pyRepr x
  | x :: y :: xs => pyRepr x ++ ", " ++ pyReprList (y :: xs)
def pyReprFields : List (String × JsonVal) → String
  | [] => ""
  | [kv] => sq ++ kv.1 ++ sq ++ ": " ++ pyRepr kv.2
  | kv :: kw :: fs => sq ++ kv.1 ++ sq ++ ": " ++ pyRepr kv.2 ++ ", " ++ pyReprFields (kw :: fs)
end

/-- Python `str` of a value decoded from JSON. -/
def pyStr : JsonVal → String
  | .jstr s => s
  | v => pyRepr v

def jsonQuote (s : String) : String := "\"" ++ s ++ "\""

/-- `json.dumps` of a string-keyed, string-valued dict (Python's default
separators are a comma-space and a colon-space). -/
def jsonDumpsStrMap (fs : List (String × String)) : String :=
  "\x7b" ++ joinSep ", "
    (fs.map (fun kv => jsonQuote kv.1 ++ ": " ++ jsonQuote kv.2)) ++ "\x7d"

/-- The spec-side notion of a valid encoded key-to-value structure: a string
that is the serialization of some string map. -/
def IsEncodedMap (s : String) : Prop := ∃ fs, s = jsonDumpsStrMap fs

/-! ## The map-field normalizer (`parquet_utils.py:189-249`) -/

/-- A pandas cell value as seen by `ensure_valid_json_map`: missing (`NaN`),
a string, a dict, or some other scalar carried by its `str()` rendering. -/
inductive CellVal where
  | cna
  | cstr (s : String)
  | cdict (fs : List (String × JsonVal))
  | cother (rep : String)
  deriving Repr

/-- External JSON/number library calls that `ensure_valid_json_map` makes:
`loads` abstracts `json.loads` on a string (`none` models a raised
`JSONDecodeError` or other parse failure), `dumpsFloatMap` abstracts
the `discount`-specific `json.dumps` of a float-coerced dict (`none`
models a raised `ValueError`/`TypeError` from `float`). -/
structure JsonLib where
  loads : String → Option JsonVal
  dumpsFloatMap : List (String × JsonVal) → Option String

def dumpsStrOfFields (fs : List (String × JsonVal)) : String :=
  jsonDumpsStrMap (fs.map (fun kv => (kv.1, pyStr kv.2)))

def dumpsFieldsFor (lib : JsonLib) (field : String)
    (fs : List (String × JsonVal)) : String :=
  if field = "discount" then
    match lib.dumpsFloatMap fs with
    | some out => out
    | none => dumpsStrOfFields fs
  else dumpsStrOfFields fs

/-- `ensure_valid_json_map` (parquet_utils.py:196-239).  Faithful points:
a string not starting with a brace, an unparsable brace-string, and a
brace-string parsing to a non-dict are returned unchanged; any other
scalar is returned as its `str()` rendering; only missing/empty values
and dict-shaped inputs are (re)serialized as maps. -/
def ensure_valid_json_map (lib : JsonLib) (field : String) (val : CellVal) : String :=
  match val with
  | .cna => "\x7b\x7d"
  | .cstr s =>
    if s = "" then "\x7b\x7d"
    else if pyStrip s ≠ "" ∧ (pyStrip s).data.head? = some (Char.ofNat 123) then
      match lib.loads s with
      | some (.jobj fs) => dumpsFieldsFor lib field fs
      | some _ => s   -- `.items()` on a non-dict raises; the bare except returns val
      | none => s     -- parse failure; the bare except returns val
    else s
  | .cdict fs => dumpsFieldsFor lib field fs
  | .cother rep => rep

/-- One cell of the map-field column pipeline: `fillna` replaces a missing
value by the two-character brace string, then `ensure_valid_json_map` is
applied (parquet_utils.py:193, 242). -/
def mapFieldNormalizeCell (lib : JsonLib) (field : String) (v : CellVal) : String :=
  ensure_valid_json_map lib field
    (match v with | .cna => .cstr "\x7b\x7d" | x => x)

/-- Python truthiness of a JSON-decoded value. -/
def jsonTruthy : JsonVal → Bool
  | .jstr s => s ≠ ""
  | .jnum n => n ≠ 0
  | .jbool b => b
  | .jnull => false
  | .jarr xs => !xs.isEmpty
  | .jobj fs => !fs.isEmpty

/-- `parse_json_or_default` (parquet_utils.py:253-275); defined in the module
but not called by the conversion pipeline.  A falsy parse result falls back
to the single-key `_empty` dict; a parse failure wraps the original value. -/
def parse_json_or_default (lib : JsonLib) (value : CellVal) : JsonVal :=
  let dflt : JsonVal := .jobj [("_empty", .jstr "")]
  match value with
  | .cna => dflt
  | .cstr s =>
    if s = "" then dflt
    else
      match lib.loads s with
      | some v => if jsonTruthy v then v else dflt
      | none => .jobj [("value", .jstr s)]
  | .cdict fs => if fs.isEmpty then dflt else .jobj fs
  | .cother rep => .jobj [("value", .jstr rep)]

/-! ## Calendar arithmetic and the time-field pipeline
(`_process_data_types`, parquet_utils.py:172-186) -/

/-- Proleptic-Gregorian date of a day count since 1970-01-01. -/
def civilFromDays (days : Nat) : Nat × Nat × Nat :=
  let z := days + 719468
  let era := z / 146097
  let doe := z % 146097
  let yoe := (doe - doe / 1460 + doe / 36524 - doe / 146096) / 365
  let y := yoe + era * 400
  let doy := doe - (365 * yoe + yoe / 4 - yoe / 100)
  let mp := (5 * doy + 2) / 153
  let d := doy - (153 * mp + 2) / 5 + 1
  let m := if mp < 10 then mp + 3 else mp - 9
  (if m ≤ 2 then y + 1 else y, m, d)

/-- Day count since 1970-01-01 of a proleptic-Gregorian date (`y ≥ 1`,
result meaningful for dates at or after the epoch). -/
def daysFromCivil (y m d : Nat) : Nat :=
  let yy := if m ≤ 2 then y - 1 else y
  let era := yy / 400
  let yoe := yy % 400
  let doy := (153 * (if 2 < m then m - 3 else m + 9) + 2) / 5 + d - 1
  let doe := yoe * 365 + yoe / 4 - yoe / 100 + doy
  era * 146097 + doe - 719468

def pad2 (n : Nat) : String :=
  if n < 10 then "0" ++ toString n else toString n

def pad3 (n : Nat) : String :=
  if n < 10 then "00" ++ toString n
  else if n < 100 then "0" ++ toString n else toString n

def pad4 (n : Nat) : String :=
  if n < 10 then "000" ++ toString n
  else if n < 100 then "00" ++ toString n
  else if n < 1000 then "0" ++ toString n else toString n

/-- `strftime('%Y-%m-%dT%H:%M:%S.%f')` truncated by `[:-3]` to millisecond
precision, applied to a wall-clock reading in milliseconds since the epoch. -/
def formatIsoNat (ms : Nat) : String :=
  let days := ms / 86400000
  let r := ms % 86400000
  let ymd := civilFromDays days
  pad4 ymd.1 ++ "-" ++ pad2 ymd.2.1 ++ "-" ++ pad2 ymd.2.2 ++ "T" ++
    pad2 (r / 3600000) ++ ":" ++ pad2 ((r / 60000) % 60) ++ ":" ++
    pad2 ((r / 1000) % 60) ++ "." ++ pad3 (r % 1000)

/-- Wall-clock formatting of a datetime value; CUR billing timestamps are
at or after the epoch, so the nonnegative case is the meaningful one. -/
def formatIsoMs (ms : Int) : String := formatIsoNat ms.toNat

/-- Parse the fixed `YYYY-MM-DDTHH:MM:SS.mmm` output format back into
milliseconds since the epoch, reading the zone-naive string as UTC. -/
def parseIsoMs (s : String) : Option Nat :=
  match splitChar (Char.ofNat 84) s with
  | [ds, ts] =>
    match splitChar (Char.ofNat 45) ds, splitChar (Char.ofNat 58) ts with
    | [ys, mos, das], [hs, mins, secms] =>
      match splitChar (Char.ofNat 46) secms with
      | [ss, mss] => do
        let y ← digitsToNat ys
        let mo ← digitsToNat mos
        let da ← digitsToNat das
        let h ← digitsToNat hs
        let mi ← digitsToNat mins
        let sec ← digitsToNat ss
        let msv ← digitsToNat mss
        pure (daysFromCivil y mo da * 86400000 + h * 3600000 + mi * 60000 +
              sec * 1000 + msv)
      | _ => none
    | _, _ => none
  | _ => none

/-- One cell of a time-field column before `pd.to_datetime`: missing, a
parsable timestamp carrying its wall reading and optional zone offset, or
an unparsable string. -/
inductive TimeEntry where
  | tnull
  | tval (wallMs : Int) (tzOffsetMs : Option Int)
  | tunparsable (s : String)
  deriving Repr, DecidableEq

inductive TimeCellOut where
  | outStr (s : String)
  | outNaN
  | outOrig (e : TimeEntry)
  deriving Repr, DecidableEq

/-- `pd.to_datetime` over a whole column: raises (`none`) when any value is
unparsable or when zone offsets are mixed; otherwise yields the parsed
values (`none` per cell models `NaT`) together with the column zone. -/
def toDatetimeColumn (col : List TimeEntry) : Option (List (Option PyDatetime) × Option Int) :=
  if col.any (fun e => match e with | .tunparsable _ => true | _ => false) then none
  else
    let vals := col.map (fun e => match e with
      | .tnull => none
      | .tval w o => some (PyDatetime.mk w o)
      | .tunparsable _ => none)
    let offsets := col.filterMap (fun e => match e with
      | .tval _ o => some o
      | _ => none)
    match offsets with
    | [] => some (vals, none)
    | o :: rest => if rest.all (fun x => x = o) then some (vals, o) else none

/-- The time-field branch of `_process_data_types` on one column
(parquet_utils.py:172-186): parse, strip the zone with
`tz_localize(None)` — which keeps the wall-clock reading — then format at
millisecond precision; `NaT` formats to a missing marker; a parse
exception leaves the whole column at its original values. -/
def process_time_column (col : List TimeEntry) : List TimeCellOut :=
  match toDatetimeColumn col with
  | none => col.map TimeCellOut.outOrig
  | some vt =>
    let vals := if vt.2.isSome then
        vt.1.map (Option.map (fun d => PyDatetime.mk d.wallMs none))
      else vt.1
    vals.map (fun v => match v with
      | none => TimeCellOut.outNaN
      | some d => TimeCellOut.outStr (formatIsoMs d.wallMs))

example : formatIsoNat 1735787045678 = "2025-01-02T03:04:05.678" := by decide
example : parseIsoMs "2025-01-02T03:04:05.678" = some 1735787045678 := by decide

/-! ## The sync orchestrator (`y-new.py`)

Effectful methods of `CURParquetConverter` are embedded as pure functions
from an explicit environment to a result paired with a trace of the
externally visible effects (S3 reads, conversions, uploads, deletions and
ledger upserts). -/

/-- The account/export configuration row fields used by the manifest
pipeline.  `keyPfx` embeds the row's report key prefix column. -/
structure Account where
  account_id : String
  bucket : String
  keyPfx : String
  deriving Repr, DecidableEq

/-- One ledger row as returned by `get_processed_manifest`; the stored
manifest-modification timestamp is nullable. -/
structure LedgerRecord where
  status : String
  manifest_last_modified : Option PyDatetime
  deriving Repr, DecidableEq

/-- Externally visible effects of one orchestrator run. -/
inductive Effect where
  | getMetadata (key : String)
  | getObject (key : String)
  | convertFile (key : String)
  | putObject (key : String)
  | deleteObject (key : String)
  | ledgerUpsert (accountId manifestPath status : String)
      (errorMessage : Option String) (expectedFiles : List String)
  deriving Repr, DecidableEq

/-- The world the orchestrator runs against.  Listings are paginated: a
listing call without a paginator observes only the head page, the
paginator walks every page. -/
structure Env where
  /-- `head_object` on the source bucket: the object's last-modified time. -/
  sourceMeta : String → Option PyDatetime
  /-- `get_object` on the source bucket (`none` covers both a missing key
  and a fetch error, exactly as `S3Handler.get_object` returns None). -/
  sourceObj : String → Option (List Nat)
  /-- the ledger keyed by (account id, manifest path). -/
  ledger : String → String → Option LedgerRecord
  /-- `json.loads` on fetched manifest bytes (`none` = decode error). -/
  jsonLoadsBytes : List Nat → Option JsonVal
  /-- `ParquetConverter.convert_csv_to_parquet` (`none` = conversion failed). -/
  convert : List Nat → Option (List Nat)
  /-- whether `put_object` to the target bucket succeeds for a key. -/
  putOk : String → Bool
  /-- paginated `list_objects_v2` pages of target-bucket keys per listing
  prefix string. -/
  targetPages : String → List (List String)
  /-- paginated delimiter-listing pages of source-bucket common prefixes
  per listing prefix string. -/
  sourcePrefixPages : String → List (List String)
  /-- `datetime.now().strftime('%Y-%m')`. -/
  currentPeriod : String

/-- `normalize_s3_path` (y-new.py:27-43).  `none` models the IndexError
raised by `key.split('/', 3)[3]` when an `s3://` key has no fourth part. -/
def normalize_s3_path (account : Account) (key : String) : Option String :=
  if strStartsWith key "s3://" then
    let parts := splitChar (Char.ofNat 47) key
    if 4 ≤ parts.length then some (joinSep "/" (parts.drop 3)) else none
  else if account.bucket ≠ "" ∧ strStartsWith key (account.bucket ++ "/") then
    some (strDrop key (account.bucket.data.length + 1))
  else some key

/-- The first path segment starting with `BILLING_PERIOD=`, as found by
`next(p for p in key.split('/') if p.startswith('BILLING_PERIOD='))`;
`none` models the StopIteration. -/
def firstBillingSegment (key : String) : Option String :=
  (splitChar (Char.ofNat 47) key).find? (fun p => strStartsWith p "BILLING_PERIOD=")

/-- `_extract_partition` (y-new.py:310-314): the `split('=')[1]` value of
the first billing-period segment of the manifest path. -/
def extract_partition (manifest_path : String) : Option String :=
  (firstBillingSegment manifest_path).map
    (fun bp => (splitChar (Char.ofNat 61) bp).getD 1 "")

/-- `_generate_target_filename` (y-new.py:356-359). -/
def generate_target_filename (source_key : String) : String :=
  takeRightStr (md5HexOfString source_key) 16 ++ ".parquet"

/-- `_get_target_key` (y-new.py:388-403). -/
def get_target_key (account : Account) (report_type source_key : String) : Option String :=
  (firstBillingSegment source_key).map (fun billing_period =>
    report_type ++ "/ID=" ++ account.account_id ++ "/cid-cur2/data/" ++
      billing_period ++ "/" ++ generate_target_filename source_key)

/-- `re.search(r'BILLING_PERIOD=([^/]+)', s)`: the captured group of the
first position where the pattern matches with a nonempty value. -/
def searchBPValue : List Char → Option (List Char)
  | [] => none
  | c :: cs =>
    if ("BILLING_PERIOD=".data).isPrefixOf (c :: cs) then
      let rest := (c :: cs).drop ("BILLING_PERIOD=".data.length)
      let v := rest.takeWhile (fun ch => ch ≠ Char.ofNat 47)
      if v.isEmpty then searchBPValue cs else some v
    else searchBPValue cs

def hasBPRegex (s : String) : Bool :=
  (searchBPValue s.data).isSome

/-- The bucket-stripping prelude of `_read_manifest_file` (y-new.py:801-802). -/
def stripBucketPfx (account : Account) (key : String) : String :=
  if account.bucket ≠ "" ∧ strStartsWith key (account.bucket ++ "/") then
    strDrop key (account.bucket.data.length + 1)
  else key

/-- One entry of `dataFiles` once `_get_data_files_from_manifest` has
resolved it: a plain key string, or a non-string `key` value of an object
entry (appended verbatim by the Python code, and bound to crash the later
`.encode()` call). -/
inductive DataEntry where
  | dstr (s : String)
  | dother
  deriving Repr, DecidableEq

def entryOfJson : JsonVal → Option DataEntry
  | .jstr s => some (.dstr s)
  | .jobj fs =>
    match fs.lookup "key" with
    | some (.jstr s) => some (.dstr s)
    | some _ => some .dother
    | none => none
  | _ => none

/-- `_get_data_files_from_manifest` (y-new.py:316-354): a non-list
`dataFiles` yields the empty list; list entries that are neither strings
nor objects with a `key` field are skipped. -/
def get_data_files_from_manifest (fields : List (String × JsonVal)) : List DataEntry :=
  match fields.lookup "dataFiles" with
  | some (.jarr xs) => xs.filterMap entryOfJson
  | _ => []

/-- `_read_manifest_file` (y-new.py:787-827): returns the parsed manifest
dict, or the empty dict when the object is absent, empty, undecodable,
not a JSON object, or lacks `dataFiles`.  The trace records the single
`get_object` call. -/
def read_manifest_file (env : Env) (account : Account) (key : String) :
    List (String × JsonVal) × List Effect :=
  let k := stripBucketPfx account key
  match env.sourceObj k with
  | none => ([], [.getObject k])
  | some content =>
    if content.isEmpty then ([], [.getObject k])
    else
      match env.jsonLoadsBytes content with
      | some (.jobj fields) =>
        if (fields.lookup "dataFiles").isSome then (fields, [.getObject k])
        else ([], [.getObject k])
      | some _ => ([], [.getObject k])
      | none => ([], [.getObject k])

/-- `_process_data_file` (y-new.py:829-862): normalize the key, fetch,
convert unless the source is already Parquet, upload.  Empty fetched
content is falsy and fails exactly like an absent object; an empty
conversion result is likewise treated as a failure. -/
def process_data_file (env : Env) (account : Account) (source_key target_key : String) :
    Bool × List Effect :=
  match normalize_s3_path account source_key with
  | none => (false, [])
  | some sk =>
    match env.sourceObj sk with
    | none => (false, [.getObject sk])
    | some content =>
      if content.isEmpty then (false, [.getObject sk])
      else if strEndsWith (strToLower sk) ".parquet" then
        (env.putOk target_key, [.getObject sk, .putObject target_key])
      else
        match env.convert content with
        | none => (false, [.getObject sk, .convertFile sk])
        | some pc =>
          if pc.isEmpty then (false, [.getObject sk, .convertFile sk])
          else (env.putOk target_key,
                [.getObject sk, .convertFile sk, .putObject target_key])

/-- The freshness check of `_process_manifest` (y-new.py:641-653): `some
true` = skip, `some false` = reprocess, `none` = the TypeError raised when
a successful record stores a NULL timestamp (caught by the outer except). -/
def freshness_skip (env : Env) (account : Account) (manifest_path : String)
    (s3lm : PyDatetime) : Option Bool :=
  match env.ledger account.account_id manifest_path with
  | none => some false
  | some rec =>
    if rec.status = "success" then
      match rec.manifest_last_modified with
      | none => none
      | some dblm =>
        some (decide
          (((ensureAware dblm).instantMs - (ensureAware s3lm).instantMs).natAbs < 1000))
    else some false

/-- The per-data-file loop of `_process_manifest` (y-new.py:673-678).
`none` in the first component models the StopIteration escaping from
`_get_target_key` when a source key has no billing-period segment; the
effects of the files already processed are kept. -/
def process_files (env : Env) (account : Account) (report_type : String) :
    List String → Option Bool × List Effect
  | [] => (some true, [])
  | k :: ks =>
    match get_target_key account report_type k with
    | none => (none, [])
    | some tk =>
      let r1 := process_data_file env account k tk
      let rest := process_files env account report_type ks
      (rest.1.map (fun b => r1.1 && b), r1.2 ++ rest.2)

/-- `_cleanup_old_files` (y-new.py:361-386): paginates over the whole
partition directory of the target bucket and deletes every object whose
file name is not among the expected files. -/
def cleanup_old_files (env : Env) (account : Account) (report_type partition : String)
    (expected_files : List String) : List Effect :=
  let pfx := report_type ++ "/ID=" ++ account.account_id ++ "/cid-cur2/data/" ++
    partition ++ "/"
  ((env.targetPages pfx).flatten).filterMap (fun k =>
    let filename := ((splitChar (Char.ofNat 47) k).getLast?).getD ""
    if expected_files.contains filename then none else some (Effect.deleteObject k))

/-- `DBHandler.update_processed_manifest` together with its caller
`_update_processed_manifest` (y-new.py:225-293, 411-443): the upsert is
rejected without touching storage when the manifest path has no
billing-period occurrence or an expected file name does not end in
`.parquet`; otherwise exactly one upsert effect carrying the status, the
error message and the expected-files list is issued. -/
def update_processed_manifest (account_id manifest_path report_type status : String)
    (error_message : Option String) (expected_files : List String) :
    Bool × List Effect :=
  if hasBPRegex manifest_path ∧
      expected_files.all (fun f => strEndsWith f ".parquet") then
    (true, [.ledgerUpsert account_id manifest_path status error_message expected_files])
  else (false, [])

/-- The body of `_process_manifest` past the freshness check
(y-new.py:655-694): read and validate the manifest, derive the expected
target file names, process every data file, clean up stale target
objects, and record the outcome with a null error message. -/
def process_manifest_body (env : Env) (account : Account)
    (manifest_path report_type : String) : Bool × List Effect :=
  let rm := read_manifest_file env account manifest_path
  if rm.1.isEmpty then (false, rm.2)
  else
    match extract_partition manifest_path with
    | none => (false, rm.2)
    | some partition =>
      let entries := get_data_files_from_manifest rm.1
      if entries.isEmpty then (false, rm.2)
      else if entries.any (fun e => e = DataEntry.dother) then (false, rm.2)
      else
        let keys := entries.filterMap
          (fun e => match e with | .dstr s => some s | .dother => none)
        let expected := keys.map generate_target_filename
        let lp := process_files env account report_type keys
        match lp.1 with
        | none => (false, rm.2 ++ lp.2)
        | some allOk =>
          let cl := cleanup_old_files env account report_type partition expected
          let up := update_processed_manifest account.account_id manifest_path
            report_type (if allOk then "success" else "error") none expected
          (allOk, rm.2 ++ lp.2 ++ cl ++ up.2)

/-- `_process_manifest` (y-new.py:619-698). -/
def process_manifest (env : Env) (account : Account)
    (manifest_path report_type : String) (force : Bool) : Bool × List Effect :=
  match env.sourceMeta manifest_path with
  | none => (false, [.getMetadata manifest_path])
  | some s3lm =>
    let skipD : Option Bool :=
      if force then some false
      else freshness_skip env account manifest_path s3lm
    match skipD with
    | none => (false, [.getMetadata manifest_path])
    | some true => (true, [.getMetadata manifest_path])
    | some false =>
      let r := process_manifest_body env account manifest_path report_type
      (r.1, .getMetadata manifest_path :: r.2)

/-! ### Billing-period discovery (`_list_billing_periods`, y-new.py:864-917) -/

def charListLe : List Char → List Char → Bool
  | [], _ => true
  | _ :: _, [] => false
  | a :: as, b :: bs =>
    if a < b then true else if b < a then false else charListLe as bs

/-- Python string comparison (lexicographic on code points). -/
def strLeB (s t : String) : Bool := charListLe s.data t.data

def insertDesc (x : String) (l : List String) : List String :=
  match l with
  | [] => [x]
  | y :: ys => if strLeB y x then x :: y :: ys else y :: insertDesc x ys

/-- Python `sorted(l, reverse=True)` on strings. -/
def sortDesc (l : List String) : List String := l.foldr insertDesc []

/-- The periods extracted from one page of common prefixes, keeping only
periods not later than the current month. -/
def periodsOfPage (currentPeriod : String) (page : List String) : List String :=
  page.filterMap (fun path =>
    match searchBPValue path.data with
    | some v =>
      let period := String.mk v
      if strLeB period currentPeriod then some ("BILLING_PERIOD=" ++ period)
      else none
    | none => none)

def metadataPfx (account : Account) (report_name : String) : String :=
  account.keyPfx ++ "/" ++ report_name ++ "/metadata/"

/-- `_list_billing_periods` (y-new.py:864-917): a caller-supplied path
filter is returned as-is; otherwise a single unpaginated
`list_objects_v2` call observes only the head page of common prefixes. -/
def list_billing_periods (env : Env) (account : Account) (report_name : String)
    (path_filter : Option String) : List String :=
  match path_filter with
  | some f => [f]
  | none =>
    let firstPage := (env.sourcePrefixPages (metadataPfx account report_name)).headD []
    sortDesc (periodsOfPage env.currentPeriod firstPage)

/-- Modelled from the spec: the complete-listing semantics the adapter
contract prescribes for the delimiter listing (every pagination token
followed, the full common-prefix set observed), with the same period
filtering and ordering. -/
def list_billing_periods_complete (env : Env) (account : Account)
    (report_name : String) : List String :=
  sortDesc (periodsOfPage env.currentPeriod
    ((env.sourcePrefixPages (metadataPfx account report_name)).flatten))

/-! ### The format converter's storage behaviour
(`convert_csv_to_parquet`, parquet_utils.py:62-154) -/

inductive FsEff where
  | tempCreate (tag : String)
  | tempDelete (tag : String)
  deriving Repr, DecidableEq

/-- `convert_csv_to_parquet` as a storage-effect model.  `memory_threshold`
embeds `self.memory_threshold` (bytes), which the method never reads;
`pipelineResult` abstracts the pandas-read / type-processing / pyarrow
write pipeline on the spilled file (`none` = an exception, turned into a
None result).  Both temporary files are created up front and removed in
the `finally` block on either exit path. -/
def convert_csv_to_parquet (memory_threshold : Nat) (csv_content : List Nat)
    (pipelineResult : Option (List Nat)) : Option (List Nat) × List FsEff :=
  let created := [FsEff.tempCreate ".csv.gz", FsEff.tempCreate ".parquet"]
  let cleaned := [FsEff.tempDelete ".csv.gz", FsEff.tempDelete ".parquet"]
  match pipelineResult with
  | none => (none, created ++ cleaned)
  | some pc => (some pc, created ++ cleaned)

/-! ## Shared lemmas -/

theorem jsonDumpsStrMap_head (fs : List (String × String)) :
    (jsonDumpsStrMap fs).data.head? = some (Char.ofNat 123) := by
  simp [jsonDumpsStrMap, String.data_append]

theorem read_manifest_file_trace (env : Env) (account : Account) (key : String) :
    (read_manifest_file env account key).2 =
      [.getObject (stripBucketPfx account key)] := by
  simp only [read_manifest_file]
  split
  · rfl
  · split
    · rfl
    · split
      · split <;> rfl
      · rfl
      · rfl

theorem process_manifest_body_mem_getObject (env : Env) (account : Account)
    (manifest_path report_type : String) :
    Effect.getObject (stripBucketPfx account manifest_path) ∈
      (process_manifest_body env account manifest_path report_type).2 := by
  simp only [process_manifest_body, read_manifest_file_trace]
  repeat' split
  all_goals simp

/-! ## Claim theorems -/

/-- Claim C1: with a successful ledger record whose stored timestamp is
within one second of the manifest's current S3 last-modified time (both
normalized to UTC) and `force` false, `_process_manifest` returns True
with no manifest read, no conversion and no upload; with a one-second-or-
larger discrepancy, a missing or unsuccessful record, or `force` true,
the manifest read is performed again. -/
theorem claim_C1 (env : Env) (account : Account) (manifest_path report_type : String)
    (s3lm : PyDatetime) (hmeta : env.sourceMeta manifest_path = some s3lm) :
    (∀ rec dblm, env.ledger account.account_id manifest_path = some rec →
        rec.status = "success" → rec.manifest_last_modified = some dblm →
        ((ensureAware dblm).instantMs - (ensureAware s3lm).instantMs).natAbs < 1000 →
        process_manifest env account manifest_path report_type false =
          (true, [.getMetadata manifest_path])) ∧
    (∀ force, (force = true ∨
        env.ledger account.account_id manifest_path = none ∨
        (∃ rec, env.ledger account.account_id manifest_path = some rec ∧
          rec.status ≠ "success") ∨
        (∃ rec dblm, env.ledger account.account_id manifest_path = some rec ∧
          rec.status = "success" ∧ rec.manifest_last_modified = some dblm ∧
          1000 ≤ ((ensureAware dblm).instantMs - (ensureAware s3lm).instantMs).natAbs)) →
        Effect.getObject (stripBucketPfx account manifest_path) ∈
          (process_manifest env account manifest_path report_type force).2) := by
  constructor
  · intro rec dblm hrec hst hml hdiff
    simp [process_manifest, hmeta, freshness_skip, hrec, hst, hml, hdiff]
  · intro force hcase
    have hbody := process_manifest_body_mem_getObject env account manifest_path report_type
    rcases hcase with hf | hl | ⟨rec, hrec, hst⟩ | ⟨rec, dblm, hrec, hst, hml, hdiff⟩
    · subst hf
      simp [process_manifest, hmeta]
      exact hbody
    · cases force with
      | true =>
        simp [process_manifest, hmeta]
        exact hbody
      | false =>
        simp [process_manifest, hmeta, freshness_skip, hl]
        exact hbody
    · cases force with
      | true =>
        simp [process_manifest, hmeta]
        exact hbody
      | false =>
        simp [process_manifest, hmeta, freshness_skip, hrec, hst]
        exact hbody
    · cases force with
      | true =>
        simp [process_manifest, hmeta]
        exact hbody
      | false =>
        have hd : ¬ (((ensureAware dblm).instantMs - (ensureAware s3lm).instantMs).natAbs < 1000) :=
          Nat.not_lt.mpr hdiff
        simp [process_manifest, hmeta, freshness_skip, hrec, hst, hml, hd]
        exact hbody

def accW : Account := ⟨"111122223333", "srcbkt", "cur"⟩

def mpW : String := "cur/rep/metadata/BILLING_PERIOD=2025-01/rep-Manifest.json"

def envC1 : Env :=
  { sourceMeta := fun k => if k = mpW then some ⟨2000, some 0⟩ else none
    sourceObj := fun _ => none
    ledger := fun a p =>
      if a = "111122223333" ∧ p = mpW then some ⟨"success", some ⟨2500, none⟩⟩
      else none
    jsonLoadsBytes := fun _ => none
    convert := fun _ => none
    putOk := fun _ => false
    targetPages := fun _ => []
    sourcePrefixPages := fun _ => []
    currentPeriod := "2025-12" }

/-- Witness for C1: a ledger record 500 ms away from the manifest's
current modification time leads to a skip, and `force` leads to a re-read. -/
theorem claim_C1_witness :
    envC1.sourceMeta mpW = some ⟨2000, some 0⟩ ∧
    envC1.ledger accW.account_id mpW = some ⟨"success", some ⟨2500, none⟩⟩ ∧
    ((ensureAware ⟨2500, none⟩).instantMs -
      (ensureAware ⟨2000, some 0⟩).instantMs).natAbs < 1000 ∧
    process_manifest envC1 accW mpW "hourly" false =
      (true, [.getMetadata mpW]) ∧
    Effect.getObject (stripBucketPfx accW mpW) ∈
      (process_manifest envC1 accW mpW "hourly" true).2 :=
  ⟨by decide, by decide, by decide,
   (claim_C1 envC1 accW mpW "hourly" ⟨2000, some 0⟩ (by decide)).1
     ⟨"success", some ⟨2500, none⟩⟩ ⟨2500, none⟩ (by decide) rfl rfl (by decide),
   (claim_C1 envC1 accW mpW "hourly" ⟨2000, some 0⟩ (by decide)).2
     true (Or.inl rfl)⟩

/-- Claim C2: the target object key is the deterministic string
`tier/ID=account/cid-cur2/data/BILLING_PERIOD=.../suffix.parquet`, where the
suffix is the last 16 hex characters of the MD5 digest of the source key,
and recomputing it from identical inputs yields an identical string. -/
theorem claim_C2 (account : Account) (tier source_key bp : String)
    (h : firstBillingSegment source_key = some bp) :
    get_target_key account tier source_key =
      some (tier ++ "/ID=" ++ account.account_id ++ "/cid-cur2/data/" ++ bp ++ "/" ++
        (takeRightStr (md5HexOfString source_key) 16 ++ ".parquet")) ∧
    get_target_key account tier source_key = get_target_key account tier source_key := by
  refine ⟨?_, rfl⟩
  simp [get_target_key, h, generate_target_filename]

/-- Witness for C2 at a concrete source key; the suffix evaluates to the
concrete MD5 tail `826dea66aa017a05`. -/
theorem claim_C2_witness :
    firstBillingSegment "p/BILLING_PERIOD=2025-01/a.csv.gz" =
      some "BILLING_PERIOD=2025-01" ∧
    get_target_key accW "hourly" "p/BILLING_PERIOD=2025-01/a.csv.gz" =
      some "hourly/ID=111122223333/cid-cur2/data/BILLING_PERIOD=2025-01/826dea66aa017a05.parquet" := by
  refine ⟨by decide, ?_⟩
  have h := (claim_C2 accW "hourly" "p/BILLING_PERIOD=2025-01/a.csv.gz"
    "BILLING_PERIOD=2025-01" (by decide)).1
  rw [h]
  set_option maxRecDepth 4096 in decide

/-- A JSON library stub for inputs on which no JSON parsing is exercised,
plus knowledge of the empty-object literal. -/
def jsonLibStd : JsonLib :=
  ⟨fun s => if s = "\x7b\x7d" then some (.jobj []) else none, fun _ => none⟩

/-- Claim C4 is false on the code: a bare scalar string input to a
map-valued field is returned unchanged by the normalizer instead of being
wrapped as a single-key structure, so the output is not a valid encoded
key-to-value structure. -/
theorem claim_C4_counterexample :
    mapFieldNormalizeCell jsonLibStd "resource_tags" (.cstr "hello") = "hello" ∧
    ¬ IsEncodedMap "hello" := by
  refine ⟨by decide, ?_⟩
  rintro ⟨fs, h⟩
  have h1 : ("hello" : String).data.head? = some (Char.ofNat 104) := by decide
  rw [h, jsonDumpsStrMap_head fs] at h1
  exact absurd h1 (by decide)

/-- Claim C4 amended: the normalizer's map-field output is always a
(non-null) string; missing and empty inputs become the empty structure and
dictionary inputs and parsable brace-strings become valid encoded
structures, but a scalar string that does not start with a brace — and any
other scalar — passes through as its text form, which need not be an
encoded key-to-value structure. -/
theorem claim_C4_amended (lib : JsonLib) (field : String) (hf : field ≠ "discount")
    (hlib : lib.loads "\x7b\x7d" = some (.jobj [])) :
    mapFieldNormalizeCell lib field .cna = "\x7b\x7d" ∧
    mapFieldNormalizeCell lib field (.cstr "") = "\x7b\x7d" ∧
    (∀ fs, IsEncodedMap (mapFieldNormalizeCell lib field (.cdict fs))) ∧
    (∀ s fs, lib.loads s = some (.jobj fs) → pyStrip s ≠ "" →
        (pyStrip s).data.head? = some (Char.ofNat 123) →
        IsEncodedMap (mapFieldNormalizeCell lib field (.cstr s))) ∧
    (∀ s, s ≠ "" →
        (pyStrip s = "" ∨ (pyStrip s).data.head? ≠ some (Char.ofNat 123)) →
        mapFieldNormalizeCell lib field (.cstr s) = s) ∧
    (∀ rep, mapFieldNormalizeCell lib field (.cother rep) = rep) := by
  refine ⟨?_, ?_, ?_, ?_, ?_, ?_⟩
  · simp [mapFieldNormalizeCell, ensure_valid_json_map, hlib, dumpsFieldsFor, hf,
      dumpsStrOfFields, jsonDumpsStrMap]
    intro _ _
    decide
  · simp [mapFieldNormalizeCell, ensure_valid_json_map]
  · intro fs
    exact ⟨fs.map (fun kv => (kv.1, pyStr kv.2)), by
      simp [mapFieldNormalizeCell, ensure_valid_json_map, dumpsFieldsFor, hf,
        dumpsStrOfFields]⟩
  · intro s fs hl hs1 hs2
    refine ⟨fs.map (fun kv => (kv.1, pyStr kv.2)), ?_⟩
    have hse : s ≠ "" := by
      intro hc; rw [hc] at hs1; exact hs1 (by decide)
    simp [mapFieldNormalizeCell, ensure_valid_json_map, hse, hs1, hs2, hl,
      dumpsFieldsFor, hf, dumpsStrOfFields]
  · intro s hse hcond
    rcases hcond with hc | hc <;>
      simp [mapFieldNormalizeCell, ensure_valid_json_map, hse, hc]
  · intro rep
    simp [mapFieldNormalizeCell, ensure_valid_json_map]

theorem jsonLibStd_loads_empty :
    jsonLibStd.loads "\x7b\x7d" = some (.jobj []) := by
  simp [jsonLibStd]

/-- Witness for C4 amended at a concrete field, the standard JSON stub,
and concrete cell values of every input class. -/
theorem claim_C4_amended_witness :
    ("resource_tags" : String) ≠ "discount" ∧
    jsonLibStd.loads "\x7b\x7d" = some (.jobj []) ∧
    mapFieldNormalizeCell jsonLibStd "resource_tags" .cna = "\x7b\x7d" ∧
    mapFieldNormalizeCell jsonLibStd "resource_tags" (.cstr "") = "\x7b\x7d" ∧
    IsEncodedMap
      (mapFieldNormalizeCell jsonLibStd "resource_tags" (.cdict [("k", .jstr "v")])) ∧
    IsEncodedMap (mapFieldNormalizeCell jsonLibStd "resource_tags" (.cstr "\x7b\x7d")) ∧
    mapFieldNormalizeCell jsonLibStd "resource_tags" (.cstr "plain") = "plain" ∧
    mapFieldNormalizeCell jsonLibStd "resource_tags" (.cother "42") = "42" :=
  ⟨by decide, jsonLibStd_loads_empty,
   (claim_C4_amended jsonLibStd "resource_tags" (by decide) jsonLibStd_loads_empty).1,
   (claim_C4_amended jsonLibStd "resource_tags" (by decide) jsonLibStd_loads_empty).2.1,
   (claim_C4_amended jsonLibStd "resource_tags" (by decide)
      jsonLibStd_loads_empty).2.2.1 [("k", .jstr "v")],
   (claim_C4_amended jsonLibStd "resource_tags" (by decide)
      jsonLibStd_loads_empty).2.2.2.1 "\x7b\x7d" [] jsonLibStd_loads_empty
      (by decide) (by decide),
   (claim_C4_amended jsonLibStd "resource_tags" (by decide)
      jsonLibStd_loads_empty).2.2.2.2.1 "plain" (by decide) (Or.inr (by decide)),
   (claim_C4_amended jsonLibStd "resource_tags" (by decide)
      jsonLibStd_loads_empty).2.2.2.2.2 "42"⟩

/-- Claim C5 against the code: the format converter's storage effects are
identical for every memory-threshold setting — the threshold is never
consulted — and both temporary files are created (and then removed) even
for inputs far below the threshold, contradicting the documented
in-memory strategy for small inputs. -/
theorem claim_C5_code_bug (mt₁ mt₂ : Nat) (content : List Nat)
    (pr : Option (List Nat)) :
    (convert_csv_to_parquet mt₁ content pr).2 = (convert_csv_to_parquet mt₂ content pr).2 ∧
    FsEff.tempCreate ".csv.gz" ∈ (convert_csv_to_parquet mt₁ content pr).2 ∧
    FsEff.tempCreate ".parquet" ∈ (convert_csv_to_parquet mt₁ content pr).2 ∧
    FsEff.tempDelete ".csv.gz" ∈ (convert_csv_to_parquet mt₁ content pr).2 ∧
    FsEff.tempDelete ".parquet" ∈ (convert_csv_to_parquet mt₁ content pr).2 := by
  cases pr <;> simp [convert_csv_to_parquet]

/-- Claim C7 is false on the code: a time value carrying a +05:00 offset is
normalized by `tz_localize(None)` to its wall-clock reading, so parsing
the output back as UTC yields an instant 5 hours later than the original
UTC instant. -/
theorem claim_C7_counterexample :
    process_time_column [.tval 1735787045678 (some 18000000)] =
      [.outStr "2025-01-02T03:04:05.678"] ∧
    parseIsoMs "2025-01-02T03:04:05.678" = some 1735787045678 ∧
    (PyDatetime.mk 1735787045678 (some 18000000)).instantMs ≠ (1735787045678 : Int) := by
  refine ⟨by decide, by decide, by decide⟩

/-- Claim C7 amended: normalization keeps the wall-clock reading of a
zone-carrying value (the UTC instant is shifted by the offset rather than
preserved), a null value becomes a null marker, and an unparsable value
does not crash the conversion but is left at its original form rather
than nulled. -/
theorem claim_C7_amended :
    (∀ w o, process_time_column [.tval w (some o)] = [.outStr (formatIsoMs w)]) ∧
    (∀ w, process_time_column [.tval w none] = [.outStr (formatIsoMs w)]) ∧
    process_time_column [.tnull] = [.outNaN] ∧
    (∀ s, process_time_column [.tunparsable s] = [.outOrig (.tunparsable s)]) := by
  refine ⟨?_, ?_, by decide, ?_⟩
  · intro w o
    simp [process_time_column, toDatetimeColumn]
  · intro w
    simp [process_time_column, toDatetimeColumn]
  · intro s
    simp [process_time_column, toDatetimeColumn]

/-- Claim C10: an empty fetched byte string is handled exactly like an
absent object — the data-file step fails with no conversion and no upload
attempted, and the manifest reader returns the empty result. -/
theorem claim_C10 (env : Env) (account : Account) (k tk mk sk : String)
    (hn : normalize_s3_path account k = some sk)
    (h1 : env.sourceObj sk = none ∨ env.sourceObj sk = some [])
    (h2 : env.sourceObj (stripBucketPfx account mk) = none ∨
          env.sourceObj (stripBucketPfx account mk) = some []) :
    process_data_file env account k tk = (false, [.getObject sk]) ∧
    read_manifest_file env account mk =
      ([], [.getObject (stripBucketPfx account mk)]) := by
  constructor
  · rcases h1 with h | h <;> simp [process_data_file, hn, h]
  · rcases h2 with h | h <;> simp [read_manifest_file, h]

def envC10 : Env :=
  { sourceMeta := fun _ => none
    sourceObj := fun key => if key = "d/f.csv.gz" ∨ key = "d/M.json" then some [] else none
    ledger := fun _ _ => none
    jsonLoadsBytes := fun _ => none
    convert := fun _ => none
    putOk := fun _ => false
    targetPages := fun _ => []
    sourcePrefixPages := fun _ => []
    currentPeriod := "2025-12" }

/-- Witness for C10: concrete objects fetched as empty byte strings. -/
theorem claim_C10_witness :
    normalize_s3_path accW "d/f.csv.gz" = some "d/f.csv.gz" ∧
    (envC10.sourceObj "d/f.csv.gz" = none ∨ envC10.sourceObj "d/f.csv.gz" = some []) ∧
    (envC10.sourceObj (stripBucketPfx accW "d/M.json") = none ∨
     envC10.sourceObj (stripBucketPfx accW "d/M.json") = some []) ∧
    (process_data_file envC10 accW "d/f.csv.gz" "t.parquet" =
      (false, [.getObject "d/f.csv.gz"]) ∧
     read_manifest_file envC10 accW "d/M.json" =
      ([], [.getObject (stripBucketPfx accW "d/M.json")])) :=
  ⟨by decide, Or.inr (by decide), Or.inr (by decide),
   claim_C10 envC10 accW "d/f.csv.gz" "t.parquet" "d/M.json" "d/f.csv.gz"
     (by decide) (Or.inr (by decide)) (Or.inr (by decide))⟩

/-! ### Loop-evaluation helpers -/

/-- Whether one data file of a manifest is processed successfully. -/
def dataFileOk (env : Env) (account : Account) (report_type k : String) : Bool :=
  (process_data_file env account k ((get_target_key account report_type k).getD "")).1

/-- The effect trace of one data file's processing. -/
def dataFileTrace (env : Env) (account : Account) (report_type k : String) : List Effect :=
  (process_data_file env account k ((get_target_key account report_type k).getD "")).2

theorem process_files_eq (env : Env) (account : Account) (report_type : String)
    (ks : List String) (h : ∀ k ∈ ks, (get_target_key account report_type k).isSome) :
    process_files env account report_type ks =
      (some (ks.all (dataFileOk env account report_type)),
       (ks.map (dataFileTrace env account report_type)).flatten) := by
  induction ks with
  | nil => simp [process_files]
  | cons k ks ih =>
    obtain ⟨tk, htk⟩ := Option.isSome_iff_exists.mp (h k (by simp))
    have ih' := ih (fun x hx => h x (List.mem_cons_of_mem _ hx))
    simp [process_files, htk, ih', dataFileOk, dataFileTrace]

theorem strEndsWith_append (a p : String) : strEndsWith (a ++ p) p = true := by
  simp [strEndsWith, String.data_append, List.isSuffixOf]

theorem generate_target_filename_endsWith (k : String) :
    strEndsWith (generate_target_filename k) ".parquet" = true := by
  simpa [generate_target_filename] using
    strEndsWith_append (takeRightStr (md5HexOfString k) 16) ".parquet"

/-- Evaluation of `process_manifest_body` on a well-formed manifest whose
data files all carry a billing-period segment. -/
theorem process_manifest_body_eq (env : Env) (account : Account)
    (manifest_path report_type partition : String) (keys : List String)
    (hfields : (read_manifest_file env account manifest_path).1.isEmpty = false)
    (hpart : extract_partition manifest_path = some partition)
    (hbp : hasBPRegex manifest_path = true)
    (hdf : get_data_files_from_manifest (read_manifest_file env account manifest_path).1 =
      keys.map DataEntry.dstr)
    (hne : keys ≠ [])
    (htk : ∀ k ∈ keys, (get_target_key account report_type k).isSome) :
    process_manifest_body env account manifest_path report_type =
      (keys.all (dataFileOk env account report_type),
       .getObject (stripBucketPfx account manifest_path) ::
         ((keys.map (dataFileTrace env account report_type)).flatten ++
          cleanup_old_files env account report_type partition
            (keys.map generate_target_filename) ++
          [.ledgerUpsert account.account_id manifest_path
            (if keys.all (dataFileOk env account report_type) then "success" else "error")
            none (keys.map generate_target_filename)])) := by
  have h1 := hfields
  have h2 : (keys.map DataEntry.dstr).isEmpty = false := by
    cases hc : keys with
    | nil => exact absurd hc hne
    | cons a l => rfl
  have h3 : (keys.map DataEntry.dstr).any (fun e => e = DataEntry.dother) = false := by
    simp
  have h4 : (keys.map DataEntry.dstr).filterMap
      (fun e => match e with | .dstr s => some s | .dother => none) = keys := by
    simp [List.filterMap_map]
    exact List.filterMap_some keys
  have h5 : (keys.map generate_target_filename).all
      (fun f => strEndsWith f ".parquet") = true := by
    simp [List.all_map]
    intro k _
    exact generate_target_filename_endsWith k
  have hpf := process_files_eq env account report_type keys htk
  simp only [process_manifest_body, read_manifest_file_trace, h1, hpart, hdf, h2, h3,
    h4, hpf, update_processed_manifest, hbp, h5, Bool.false_eq_true, if_false,
    and_true, if_true]
  simp [update_processed_manifest, hbp, h5]

theorem process_data_file_mem_getObject (env : Env) (account : Account)
    (k tk sk : String) (hn : normalize_s3_path account k = some sk) :
    Effect.getObject sk ∈ (process_data_file env account k tk).2 := by
  simp only [process_data_file, hn]
  repeat' split
  all_goals simp

def isPutEff : Effect → Bool
  | .putObject _ => true
  | _ => false

/-- Number of upload attempts in a trace. -/
def countPuts (tr : List Effect) : Nat := tr.countP isPutEff

/-- Expected-files payloads of the ledger upserts in a trace. -/
def upsertExpected (tr : List Effect) : List (List String) :=
  tr.filterMap (fun e => match e with
    | .ledgerUpsert _ _ _ _ fs => some fs
    | _ => none)

/-- Error-message payloads of the ledger upserts in a trace. -/
def upsertMsgs (tr : List Effect) : List (Option String) :=
  tr.filterMap (fun e => match e with
    | .ledgerUpsert _ _ _ m _ => some m
    | _ => none)

theorem cleanup_only_deletes (env : Env) (account : Account)
    (report_type partition : String) (expected : List String) :
    ∀ e ∈ cleanup_old_files env account report_type partition expected,
      ∃ k, e = Effect.deleteObject k := by
  intro e he
  simp only [cleanup_old_files, List.mem_filterMap] at he
  obtain ⟨k, hk, hsome⟩ := he
  by_cases hc : expected.contains (((splitChar (Char.ofNat 47) k).getLast?).getD "")
  · simp only [if_pos hc] at hsome
    exact Option.noConfusion hsome
  · simp only [if_neg hc, Option.some.injEq] at hsome
    exact ⟨k, hsome.symm⟩

theorem countPuts_cleanup (env : Env) (account : Account)
    (report_type partition : String) (expected : List String) :
    countPuts (cleanup_old_files env account report_type partition expected) = 0 := by
  rw [countPuts, List.countP_eq_zero]
  intro e he
  obtain ⟨k, rfl⟩ := cleanup_only_deletes env account report_type partition expected e he
  simp [isPutEff]

theorem upsertMsgs_cleanup (env : Env) (account : Account)
    (report_type partition : String) (expected : List String) :
    upsertMsgs (cleanup_old_files env account report_type partition expected) = [] := by
  rw [upsertMsgs, List.filterMap_eq_nil_iff]
  intro e he
  obtain ⟨k, rfl⟩ := cleanup_only_deletes env account report_type partition expected e he
  rfl

theorem upsertExpected_cleanup (env : Env) (account : Account)
    (report_type partition : String) (expected : List String) :
    upsertExpected (cleanup_old_files env account report_type partition expected) = [] := by
  rw [upsertExpected, List.filterMap_eq_nil_iff]
  intro e he
  obtain ⟨k, rfl⟩ := cleanup_only_deletes env account report_type partition expected e he
  rfl

theorem upsertExpected_append (l1 l2 : List Effect) :
    upsertExpected (l1 ++ l2) = upsertExpected l1 ++ upsertExpected l2 :=
  List.filterMap_append l1 l2 _

theorem upsertMsgs_data_file (env : Env) (account : Account) (k tk : String) :
    upsertMsgs ((process_data_file env account k tk).2) = [] := by
  simp only [process_data_file]
  repeat' split
  all_goals simp [upsertMsgs]

theorem upsertMsgs_append (l1 l2 : List Effect) :
    upsertMsgs (l1 ++ l2) = upsertMsgs l1 ++ upsertMsgs l2 :=
  List.filterMap_append l1 l2 _

theorem upsertMsgs_process_files (env : Env) (account : Account)
    (report_type : String) (ks : List String) :
    upsertMsgs ((process_files env account report_type ks).2) = [] := by
  induction ks with
  | nil => rfl
  | cons k ks ih =>
    cases htk : get_target_key account report_type k with
    | none => simp [process_files, htk, upsertMsgs]
    | some tk =>
      simp only [process_files, htk]
      rw [upsertMsgs_append, upsertMsgs_data_file, ih]
      rfl

/-- Claim C8: a data file's failure does not stop the processing of the
remaining files of the same manifest — every file's fetch is attempted —
and the recorded status is `success` exactly when every file succeeded,
`error` otherwise. -/
theorem claim_C8 (env : Env) (account : Account)
    (manifest_path report_type partition : String) (force : Bool)
    (s3lm : PyDatetime) (keys : List String)
    (hmeta : env.sourceMeta manifest_path = some s3lm)
    (hskip : (if force then some false
      else freshness_skip env account manifest_path s3lm) = some false)
    (hfields : (read_manifest_file env account manifest_path).1.isEmpty = false)
    (hpart : extract_partition manifest_path = some partition)
    (hbp : hasBPRegex manifest_path = true)
    (hdf : get_data_files_from_manifest (read_manifest_file env account manifest_path).1 =
      keys.map DataEntry.dstr)
    (hne : keys ≠ [])
    (htk : ∀ k ∈ keys, (get_target_key account report_type k).isSome) :
    (∀ k ∈ keys, ∀ sk, normalize_s3_path account k = some sk →
        Effect.getObject sk ∈
          (process_manifest env account manifest_path report_type force).2) ∧
    (process_manifest env account manifest_path report_type force).1 =
      keys.all (dataFileOk env account report_type) ∧
    Effect.ledgerUpsert account.account_id manifest_path
        (if keys.all (dataFileOk env account report_type) then "success" else "error")
        none (keys.map generate_target_filename) ∈
      (process_manifest env account manifest_path report_type force).2 := by
  have hb := process_manifest_body_eq env account manifest_path report_type partition
    keys hfields hpart hbp hdf hne htk
  have hpm : process_manifest env account manifest_path report_type force =
      (keys.all (dataFileOk env account report_type),
       .getMetadata manifest_path ::
        .getObject (stripBucketPfx account manifest_path) ::
         ((keys.map (dataFileTrace env account report_type)).flatten ++
          cleanup_old_files env account report_type partition
            (keys.map generate_target_filename) ++
          [.ledgerUpsert account.account_id manifest_path
            (if keys.all (dataFileOk env account report_type) then "success" else "error")
            none (keys.map generate_target_filename)])) := by
    simp only [process_manifest, hmeta, hskip, hb]
  refine ⟨?_, ?_, ?_⟩
  · intro k hk sk hnorm
    rw [hpm]
    have hmem : Effect.getObject sk ∈ dataFileTrace env account report_type k :=
      process_data_file_mem_getObject env account k _ sk hnorm
    have hfl : Effect.getObject sk ∈
        (keys.map (dataFileTrace env account report_type)).flatten :=
      List.mem_flatten.mpr ⟨_, List.mem_map_of_mem _ hk, hmem⟩
    simp [hfl]
  · rw [hpm]
  · rw [hpm]
    simp

theorem upsertMsgs_update_none (aid mp rt st : String) (fs : List String) :
    ∃ n, upsertMsgs ((update_processed_manifest aid mp rt st none fs).2) =
      List.replicate n none := by
  unfold update_processed_manifest
  split
  · exact ⟨1, rfl⟩
  · exact ⟨0, rfl⟩

theorem upsertMsgs_body (env : Env) (account : Account)
    (manifest_path report_type : String) :
    ∃ n, upsertMsgs ((process_manifest_body env account manifest_path report_type).2) =
      List.replicate n none := by
  simp only [process_manifest_body, read_manifest_file_trace]
  repeat' split
  all_goals first
    | exact ⟨0, rfl⟩
    | exact ⟨0, by rw [upsertMsgs_append, upsertMsgs_process_files]; simp [upsertMsgs]⟩
    | (obtain ⟨n, hn⟩ := upsertMsgs_update_none account.account_id manifest_path
          report_type _ _
       exact ⟨n, by
        rw [upsertMsgs_append, upsertMsgs_append, upsertMsgs_append,
          upsertMsgs_process_files, upsertMsgs_cleanup, hn]
        simp [upsertMsgs]⟩)

/-- Claim C9: every ledger upsert issued by `_process_manifest` carries a
null error message, whatever the run's outcome. -/
theorem claim_C9 (env : Env) (account : Account)
    (manifest_path report_type : String) (force : Bool) :
    ∃ n, upsertMsgs ((process_manifest env account manifest_path report_type force).2) =
      List.replicate n none := by
  simp only [process_manifest]
  repeat' split
  all_goals first
    | exact ⟨0, rfl⟩
    | (obtain ⟨n, hn⟩ := upsertMsgs_body env account manifest_path report_type
       exact ⟨n, by simpa [upsertMsgs] using hn⟩)

/-! ### Concrete two-file manifest scenario -/

def k1C3 : String := "p/BILLING_PERIOD=2025-01/a.csv.gz"
def k2C3 : String := "p/BILLING_PERIOD=2025-01/b.csv.gz"
def mpC3 : String := "p/BILLING_PERIOD=2025-01/M.json"
def accC3 : Account := ⟨"222", "b", "p"⟩

def envC3 : Env :=
  { sourceMeta := fun k => if k = mpC3 then some ⟨0, some 0⟩ else none
    sourceObj := fun k =>
      if k = mpC3 then some [1]
      else if k = k1C3 then some [2]
      else if k = k2C3 then some [3]
      else none
    ledger := fun _ _ => none
    jsonLoadsBytes := fun b =>
      if b = [1] then some (.jobj [("dataFiles", .jarr [.jstr k1C3, .jstr k2C3])])
      else none
    convert := fun c => if c = [2] then some [9] else none
    putOk := fun _ => true
    targetPages := fun _ => []
    sourcePrefixPages := fun _ => []
    currentPeriod := "2025-12" }

/-- Claim C3 is false on the code at a concrete two-file manifest that
realizes the claim's scenario: the first file's processing succeeds
(conversion and upload) and the second file's conversion fails.  Exactly
one upload happens and the single ledger record carries status error, but
its expected-files list holds the derived names of BOTH files — it is not
equal to the list holding only the well-formed file's derived name. -/
theorem claim_C3_counterexample :
    (process_data_file envC3 accC3 k1C3
      "hourly/ID=222/cid-cur2/data/BILLING_PERIOD=2025-01/826dea66aa017a05.parquet").1 =
      true ∧
    (process_data_file envC3 accC3 k2C3
      "hourly/ID=222/cid-cur2/data/BILLING_PERIOD=2025-01/13f144bbd3506dab.parquet").1 =
      false ∧
    (process_manifest envC3 accC3 mpC3 "hourly" false).1 = false ∧
    countPuts ((process_manifest envC3 accC3 mpC3 "hourly" false).2) = 1 ∧
    Effect.ledgerUpsert accC3.account_id mpC3 "error" none
        ["826dea66aa017a05.parquet", "13f144bbd3506dab.parquet"] ∈
      (process_manifest envC3 accC3 mpC3 "hourly" false).2 ∧
    upsertExpected ((process_manifest envC3 accC3 mpC3 "hourly" false).2) =
      [["826dea66aa017a05.parquet", "13f144bbd3506dab.parquet"]] ∧
    upsertExpected ((process_manifest envC3 accC3 mpC3 "hourly" false).2) ≠
      [["826dea66aa017a05.parquet"]] := by
  refine ⟨?_, ?_, ?_, ?_, ?_, ?_, ?_⟩ <;> · set_option maxRecDepth 100000 in decide

/-- Witness for C8 at the concrete two-file environment `envC3`. -/
theorem claim_C8_witness :
    envC3.sourceMeta mpC3 = some ⟨0, some 0⟩ ∧
    (if false then some false else freshness_skip envC3 accC3 mpC3 ⟨0, some 0⟩) =
      some false ∧
    (read_manifest_file envC3 accC3 mpC3).1.isEmpty = false ∧
    extract_partition mpC3 = some "2025-01" ∧
    hasBPRegex mpC3 = true ∧
    get_data_files_from_manifest (read_manifest_file envC3 accC3 mpC3).1 =
      [k1C3, k2C3].map DataEntry.dstr ∧
    ([k1C3, k2C3] : List String) ≠ [] ∧
    [k1C3, k2C3].all (fun k => (get_target_key accC3 "hourly" k).isSome) = true ∧
    (Effect.getObject k1C3 ∈ (process_manifest envC3 accC3 mpC3 "hourly" false).2 ∧
     Effect.getObject k2C3 ∈ (process_manifest envC3 accC3 mpC3 "hourly" false).2 ∧
     (process_manifest envC3 accC3 mpC3 "hourly" false).1 =
      [k1C3, k2C3].all (dataFileOk envC3 accC3 "hourly") ∧
     Effect.ledgerUpsert accC3.account_id mpC3
        (if [k1C3, k2C3].all (dataFileOk envC3 accC3 "hourly") then "success" else "error")
        none ([k1C3, k2C3].map generate_target_filename) ∈
      (process_manifest envC3 accC3 mpC3 "hourly" false).2) := by
  have h8 := claim_C8 envC3 accC3 mpC3 "hourly" "2025-01" false ⟨0, some 0⟩ [k1C3, k2C3]
    (by decide) (by decide) (by decide) (by decide) (by decide) (by decide)
    (by decide) (by set_option maxRecDepth 100000 in decide)
  refine ⟨?_, ?_, ?_, ?_, ?_, ?_, ?_, ?_, ?_, ?_, h8.2.1, h8.2.2⟩
  · decide
  · decide
  · decide
  · decide
  · decide
  · decide
  · decide
  · set_option maxRecDepth 100000 in decide
  · exact h8.1 k1C3 (by decide) k1C3 (by decide)
  · exact h8.1 k2C3 (by decide) k2C3 (by decide)

/-- Claim C3 amended (only the expected-files conjunct changes): for a
manifest referencing two source data files where the first converts
successfully and the second fails conversion, `_process_manifest` uploads
exactly one target object (the well-formed file's), records the per-file
failure (the second file's step fails and the manifest result is
failure), writes a ledger record with overall status error — and the
expected-files list stored in that one ledger record contains the derived
target file names of BOTH data files, not only the well-formed one's. -/
theorem claim_C3_amended (env : Env) (account : Account)
    (manifest_path report_type partition : String) (s3lm : PyDatetime)
    (k1 k2 sk1 sk2 t1 t2 : String) (c1 p1 c2 : List Nat)
    (hmeta : env.sourceMeta manifest_path = some s3lm)
    (hskip : freshness_skip env account manifest_path s3lm = some false)
    (hfields : (read_manifest_file env account manifest_path).1.isEmpty = false)
    (hpart : extract_partition manifest_path = some partition)
    (hbp : hasBPRegex manifest_path = true)
    (hdf : get_data_files_from_manifest (read_manifest_file env account manifest_path).1 =
      [DataEntry.dstr k1, DataEntry.dstr k2])
    (htk1 : get_target_key account report_type k1 = some t1)
    (htk2 : get_target_key account report_type k2 = some t2)
    (hn1 : normalize_s3_path account k1 = some sk1)
    (ho1 : env.sourceObj sk1 = some c1) (hc1 : c1.isEmpty = false)
    (hpq1 : strEndsWith (strToLower sk1) ".parquet" = false)
    (hcv1 : env.convert c1 = some p1) (hpne : p1.isEmpty = false)
    (hput : env.putOk t1 = true)
    (hn2 : normalize_s3_path account k2 = some sk2)
    (ho2 : env.sourceObj sk2 = some c2) (hc2 : c2.isEmpty = false)
    (hpq2 : strEndsWith (strToLower sk2) ".parquet" = false)
    (hcv2 : env.convert c2 = none) :
    (process_data_file env account k1 t1).1 = true ∧
    (process_data_file env account k2 t2).1 = false ∧
    (process_manifest env account manifest_path report_type false).1 = false ∧
    countPuts ((process_manifest env account manifest_path report_type false).2) = 1 ∧
    Effect.putObject t1 ∈
      (process_manifest env account manifest_path report_type false).2 ∧
    Effect.ledgerUpsert account.account_id manifest_path "error" none
        [generate_target_filename k1, generate_target_filename k2] ∈
      (process_manifest env account manifest_path report_type false).2 ∧
    upsertExpected ((process_manifest env account manifest_path report_type false).2) =
      [[generate_target_filename k1, generate_target_filename k2]] := by
  have e1 : process_data_file env account k1 t1 =
      (true, [.getObject sk1, .convertFile sk1, .putObject t1]) := by
    simp [process_data_file, hn1, ho1, hc1, hpq1, hcv1, hpne, hput]
  have e2 : process_data_file env account k2 t2 =
      (false, [.getObject sk2, .convertFile sk2]) := by
    simp [process_data_file, hn2, ho2, hc2, hpq2, hcv2]
  have hok1 : dataFileOk env account report_type k1 = true := by
    rw [dataFileOk, htk1, Option.getD_some, e1]
  have hok2 : dataFileOk env account report_type k2 = false := by
    rw [dataFileOk, htk2, Option.getD_some, e2]
  have htr1 : dataFileTrace env account report_type k1 =
      [.getObject sk1, .convertFile sk1, .putObject t1] := by
    rw [dataFileTrace, htk1, Option.getD_some, e1]
  have htr2 : dataFileTrace env account report_type k2 =
      [.getObject sk2, .convertFile sk2] := by
    rw [dataFileTrace, htk2, Option.getD_some, e2]
  have hall : [k1, k2].all (dataFileOk env account report_type) = false := by
    simp [hok1, hok2]
  have hb := process_manifest_body_eq env account manifest_path report_type partition
    [k1, k2] hfields hpart hbp hdf (by simp)
    (by
      intro k hk
      simp only [List.mem_cons, List.not_mem_nil, or_false] at hk
      rcases hk with rfl | rfl
      · simp [htk1]
      · simp [htk2])
  have hpm : process_manifest env account manifest_path report_type false =
      (false,
       .getMetadata manifest_path ::
        .getObject (stripBucketPfx account manifest_path) ::
         ((([k1, k2].map (dataFileTrace env account report_type)).flatten ++
          cleanup_old_files env account report_type partition
            ([k1, k2].map generate_target_filename) ++
          [.ledgerUpsert account.account_id manifest_path "error"
            none ([k1, k2].map generate_target_filename)]))) := by
    rw [hall] at hb
    simp only [process_manifest, hmeta, Bool.false_eq_true, if_false, hskip, hb,
      Bool.if_false_left]
  have hcl := countPuts_cleanup env account report_type partition
    ([k1, k2].map generate_target_filename)
  rw [countPuts] at hcl
  have hce := upsertExpected_cleanup env account report_type partition
    ([k1, k2].map generate_target_filename)
  rw [upsertExpected] at hce
  refine ⟨?_, ?_, ?_, ?_, ?_, ?_, ?_⟩
  · rw [e1]
  · rw [e2]
  · rw [hpm]
  · rw [hpm]
    simp [countPuts, List.countP_cons, List.countP_append, htr1, htr2, isPutEff, hcl]
    intro a ha
    obtain ⟨k, rfl⟩ := cleanup_only_deletes env account report_type partition _ a ha
    rfl
  · rw [hpm]
    simp [htr1, htr2]
  · rw [hpm]
    simp
  · rw [hpm]
    simp [upsertExpected, List.filterMap_append, htr1, htr2, hce]
    intro a ha
    obtain ⟨k, rfl⟩ := cleanup_only_deletes env account report_type partition _ a ha
    rfl

/-- Witness for C3 amended: the concrete environment `envC3`, in which the
first file's bytes convert and the second file's conversion fails. -/
theorem claim_C3_amended_witness :
    envC3.sourceMeta mpC3 = some ⟨0, some 0⟩ ∧
    freshness_skip envC3 accC3 mpC3 ⟨0, some 0⟩ = some false ∧
    envC3.convert [2] = some [9] ∧
    envC3.convert [3] = none ∧
    ((process_data_file envC3 accC3 k1C3
        "hourly/ID=222/cid-cur2/data/BILLING_PERIOD=2025-01/826dea66aa017a05.parquet").1 =
       true ∧
     (process_data_file envC3 accC3 k2C3
        "hourly/ID=222/cid-cur2/data/BILLING_PERIOD=2025-01/13f144bbd3506dab.parquet").1 =
       false ∧
     (process_manifest envC3 accC3 mpC3 "hourly" false).1 = false ∧
     countPuts ((process_manifest envC3 accC3 mpC3 "hourly" false).2) = 1 ∧
     Effect.putObject
        "hourly/ID=222/cid-cur2/data/BILLING_PERIOD=2025-01/826dea66aa017a05.parquet" ∈
      (process_manifest envC3 accC3 mpC3 "hourly" false).2 ∧
     Effect.ledgerUpsert accC3.account_id mpC3 "error" none
        [generate_target_filename k1C3, generate_target_filename k2C3] ∈
      (process_manifest envC3 accC3 mpC3 "hourly" false).2 ∧
     upsertExpected ((process_manifest envC3 accC3 mpC3 "hourly" false).2) =
      [[generate_target_filename k1C3, generate_target_filename k2C3]]) :=
  ⟨by decide, by decide, by decide, by decide,
   claim_C3_amended envC3 accC3 mpC3 "hourly" "2025-01" ⟨0, some 0⟩
     k1C3 k2C3 k1C3 k2C3
     "hourly/ID=222/cid-cur2/data/BILLING_PERIOD=2025-01/826dea66aa017a05.parquet"
     "hourly/ID=222/cid-cur2/data/BILLING_PERIOD=2025-01/13f144bbd3506dab.parquet"
     [2] [9] [3]
     (by decide) (by decide) (by decide) (by decide) (by decide) (by decide)
     (by set_option maxRecDepth 100000 in decide)
     (by set_option maxRecDepth 100000 in decide)
     (by decide) (by decide) (by decide) (by decide) (by decide) (by decide)
     (by decide) (by decide) (by decide) (by decide) (by decide) (by decide)⟩

/-! ### Pagination -/

def accC6 : Account := ⟨"333", "b", "cur"⟩

def envC6 : Env :=
  { sourceMeta := fun _ => none
    sourceObj := fun _ => none
    ledger := fun _ _ => none
    jsonLoadsBytes := fun _ => none
    convert := fun _ => none
    putOk := fun _ => false
    targetPages := fun p =>
      if p = "hourly/ID=333/cid-cur2/data/2025-01/" then
        [["hourly/ID=333/cid-cur2/data/2025-01/old.parquet"],
         ["hourly/ID=333/cid-cur2/data/2025-01/keep.parquet"]]
      else []
    sourcePrefixPages := fun p =>
      if p = "cur/rep/metadata/" then
        [["cur/rep/metadata/BILLING_PERIOD=2025-01/"],
         ["cur/rep/metadata/BILLING_PERIOD=2025-02/"]]
      else []
    currentPeriod := "2025-12" }

/-- Claim C6 is false on the code: in a store whose delimiter listing needs
two pages, partition discovery observes only the first page's common
prefixes, so the caller misses `BILLING_PERIOD=2025-02` that the complete
listing contains. -/
theorem claim_C6_counterexample :
    list_billing_periods envC6 accC6 "rep" none = ["BILLING_PERIOD=2025-01"] ∧
    list_billing_periods_complete envC6 accC6 "rep" =
      ["BILLING_PERIOD=2025-02", "BILLING_PERIOD=2025-01"] ∧
    list_billing_periods envC6 accC6 "rep" none ≠
      list_billing_periods_complete envC6 accC6 "rep" := by
  refine ⟨by decide, by decide, by decide⟩

/-- Claim C6 amended: the stale-file cleanup follows every pagination page
(each stale key on any page is deleted), but the delimiter-based partition
discovery issues a single unpaginated listing call and observes only the
head page of common prefixes. -/
theorem claim_C6_amended (env : Env) (account : Account)
    (report_type partition : String) (expected : List String) (k : String)
    (hk : k ∈ (env.targetPages (report_type ++ "/ID=" ++ account.account_id ++
      "/cid-cur2/data/" ++ partition ++ "/")).flatten)
    (hn : ¬ expected.contains (((splitChar (Char.ofNat 47) k).getLast?).getD "")) :
    Effect.deleteObject k ∈
      cleanup_old_files env account report_type partition expected ∧
    ∀ report_name, list_billing_periods env account report_name none =
      sortDesc (periodsOfPage env.currentPeriod
        ((env.sourcePrefixPages (metadataPfx account report_name)).headD [])) := by
  constructor
  · simp only [cleanup_old_files, List.mem_filterMap]
    refine ⟨k, hk, ?_⟩
    rw [if_neg hn]
  · intro report_name
    rfl

/-- Witness for C6 amended: a stale key sitting on the second page of the
paginated target listing is still deleted. -/
theorem claim_C6_amended_witness :
    "hourly/ID=333/cid-cur2/data/2025-01/keep.parquet" ∈
      (envC6.targetPages ("hourly" ++ "/ID=" ++ accC6.account_id ++
        "/cid-cur2/data/" ++ "2025-01" ++ "/")).flatten ∧
    ¬ (["other.parquet"] : List String).contains
      (((splitChar (Char.ofNat 47)
        "hourly/ID=333/cid-cur2/data/2025-01/keep.parquet").getLast?).getD "") ∧
    (Effect.deleteObject "hourly/ID=333/cid-cur2/data/2025-01/keep.parquet" ∈
      cleanup_old_files envC6 accC6 "hourly" "2025-01" ["other.parquet"] ∧
     list_billing_periods envC6 accC6 "rep" none =
      sortDesc (periodsOfPage envC6.currentPeriod
        ((envC6.sourcePrefixPages (metadataPfx accC6 "rep")).headD []))) :=
  ⟨by decide, by decide,
   (claim_C6_amended envC6 accC6 "hourly" "2025-01" ["other.parquet"]
     "hourly/ID=333/cid-cur2/data/2025-01/keep.parquet" (by decide) (by decide)).1,
   (claim_C6_amended envC6 accC6 "hourly" "2025-01" ["other.parquet"]
     "hourly/ID=333/cid-cur2/data/2025-01/keep.parquet" (by decide) (by decide)).2
     "rep"⟩

end CurSync
